import Mathlib

/-!
Verification development for the playback controller
(`framework/application/application.h` / `application.cpp`) of the
gfxreconstruct replay tool.  The controller drives a frame-by-frame run
loop, tracks run/pause state, coordinates an optional measurement range
for computing replay frames-per-second, and maintains a registry of
display windows.

The embedding below translates the controller class faithfully.  The
external collaborators (the frame decoder `decode::FileProcessor`, the
timestamp utilities `util::datetime`, and the pure-virtual event pump
`ProcessEvents`) are not part of the given sources; they are modelled
from the specification of the interface the controller consumes, and
each such definition is marked `Modelled from the spec:`.
-/

/-- Modelled from the spec: the external frame source
(`decode::FileProcessor`, not under the given sources).  §6 of the spec
gives its contract: `CurrentFrameNumber` is monotonically non-decreasing
across successful advances, `AdvanceFrame` (`ProcessNextFrame`) is
side-effecting and advances exactly one frame on success, `WaitUntilIdle`
(`WaitDecodersIdle`) blocks until asynchronous work completes, and
`ErrorState` is sticky once set.  `advanceScript` drives the outcomes of
successive advance calls; `decodersIdle` records whether the last
operation left the decoders idle. -/
structure FileProcessor where
  currentFrame : Nat
  errorState : Bool
  decodersIdle : Bool
  advanceScript : List Bool
deriving DecidableEq

/-- Modelled from the spec: one advance of the frame source.  On success
the current frame number advances by exactly one (spec §6) and
asynchronous work becomes outstanding; on failure the sticky error state
is set (spec §6, §7 "upstream failures"). -/
def FileProcessor.processNextFrame (fp : FileProcessor) : Bool × FileProcessor :=
  match fp.advanceScript with
  | [] => (false, { fp with errorState := true })
  | ok :: rest =>
    if ok then
      (true, { fp with currentFrame := fp.currentFrame + 1, advanceScript := rest,
                       decodersIdle := false })
    else
      (false, { fp with errorState := true, advanceScript := rest })

/-- Modelled from the spec: `WaitDecodersIdle` blocks until all
asynchronous decode/replay work has completed; its postcondition is that
the decoders are idle. -/
def FileProcessor.waitDecodersIdle (fp : FileProcessor) : FileProcessor :=
  { fp with decodersIdle := true }

/-- State of the `Application` controller, mirroring the private members
declared in `application.h`: the window registry, the borrowed frame
processor (a possibly-null pointer, hence `Option`), the `running_` and
`paused_` flags, the display name, the auto-pause frame and the two
measurement timestamps.  Window handles (`decode::Window*`, non-null by
the `assert` in the source) are modelled as opaque identifiers. -/
structure Application where
  windows : List Nat
  fileProcessor : Option FileProcessor
  running : Bool
  paused : Bool
  name : String
  pauseFrame : Nat
  measurementStartTime : Int
  measurementEndTime : Int
deriving DecidableEq

/-- The constructor `Application::Application(name)`: empty window list,
null file processor, not running, not paused.  `pause_frame_`,
`measurement_start_time` and `measurement_end_time` are left
uninitialized by the source constructor; the parameters
`pauseFrameInit`, `startTimeInit`, `endTimeInit` stand for those
indeterminate initial values. -/
def Application.init (name : String) (pauseFrameInit : Nat)
    (startTimeInit endTimeInit : Int) : Application :=
  { windows := [], fileProcessor := none, running := false, paused := false,
    name := name, pauseFrame := pauseFrameInit,
    measurementStartTime := startTimeInit, measurementEndTime := endTimeInit }

/-- `Application::SetFileProcessor`: stores the (possibly null) frame
processor pointer. -/
def Application.setFileProcessor (app : Application) (fp : Option FileProcessor) :
    Application :=
  { app with fileProcessor := fp }

/-- `Application::SetPaused`: stores the flag.  The source additionally
logs an informational notice when pausing with a bound processor at a
positive frame; logging does not change the state. -/
def Application.setPaused (app : Application) (paused : Bool) : Application :=
  { app with paused := paused }

/-- `Application::SetPauseFrame`: stores the auto-pause frame. -/
def Application.setPauseFrame (app : Application) (pauseFrame : Nat) : Application :=
  { app with pauseFrame := pauseFrame }

/-- `Application::PlaySingleFrame` (application.cpp lines 101-131).
With no processor bound, `success` stays false and nothing else happens.
With a processor bound, the processor advances; on success the paused
flag is raised when the new current frame equals `pause_frame_`, and on
failure `running_` is cleared. -/
def Application.playSingleFrame (app : Application) : Bool × Application :=
  match app.fileProcessor with
  | none => (false, app)
  | some fp =>
    let (success, fp2) := fp.processNextFrame
    if success then
      let pausedNew := if fp2.currentFrame == app.pauseFrame then true else app.paused
      (true, { app with fileProcessor := some fp2, paused := pausedNew })
    else
      (false, { app with fileProcessor := some fp2, running := false })

/-- `Application::RegisterWindow` (application.cpp lines 133-146): a
handle already present is rejected with `false` and no change; otherwise
it is appended (`push_back`) and `true` is returned. -/
def Application.registerWindow (app : Application) (window : Nat) : Bool × Application :=
  if window ∈ app.windows then
    (false, app)
  else
    (true, { app with windows := app.windows ++ [window] })

/-- `Application::UnregisterWindow` (application.cpp lines 148-164): a
handle not present is rejected with `false` and no change; otherwise its
first occurrence is erased and `true` is returned. -/
def Application.unregisterWindow (app : Application) (window : Nat) : Bool × Application :=
  if window ∈ app.windows then
    (true, { app with windows := app.windows.erase window })
  else
    (false, app)

/-- Modelled from the spec: `util::datetime::DiffTimestamps` (not under
the given sources) — the difference between two int64 timestamps. -/
def diffTimestamps (startTime endTime : Int) : Int := endTime - startTime

/-- Modelled from the spec: `util::datetime::ConvertTimestampToSeconds`
(not under the given sources) — timestamps are nanosecond ticks and the
declared conversion factor is 10^9 ticks per second.  Double-precision
arithmetic is idealized as exact rational arithmetic. -/
def convertTimestampToSeconds (t : Int) : ℚ := (t : ℚ) / 1000000000

/-- Fixed six-decimal rendering of a rational, modelling the C `%f`
conversion used by `GFXRECON_WRITE_CONSOLE` (round to six decimal
places). -/
def formatFixed6 (q : ℚ) : String :=
  let scaled : Int := round (q * 1000000)
  let sign := if scaled < 0 then "-" else ""
  let n := scaled.natAbs
  let intPart := n / 1000000
  let fracPart := n % 1000000
  let fracStr := toString fracPart
  let padded := String.mk (List.replicate (6 - fracStr.length) (Char.ofNat 48)) ++ fracStr
  sign ++ toString intPart ++ "." ++ padded

/-- The console line written by `WriteMeasurementRangeFpsToConsole`
(application.cpp lines 244-250): format string
`Measurement range FPS: %f fps, %f seconds, %u frame%s, 1 loop,
framerange [%u-%u)` with `s` appended exactly when the frame count
exceeds one. -/
def renderFpsLine (fps sec : ℚ) (totalFrames startFrame endFrame : Nat) : String :=
  "Measurement range FPS: " ++ formatFixed6 fps ++ " fps, " ++ formatFixed6 sec ++
    " seconds, " ++ toString totalFrames ++ " frame" ++
    (if 1 < totalFrames then "s" else "") ++
    ", 1 loop, framerange [" ++ toString startFrame ++ "-" ++ toString endFrame ++ ")"

/-- Outcome of `WriteMeasurementRangeFpsToConsole`: one constructor per
early-exit diagnostic, plus `reported` carrying the console line and its
components (fps, elapsed seconds, total frames, start frame, end frame
as printed).  `noFrameSource` marks the state in which the source would
dereference a null `file_processor_` (undefined behavior, never reached
by a properly initialized application). -/
inductive ReportOutcome where
  | noFrameSource : ReportOutcome
  | failureOccurred : ReportOutcome
  | rangeNotReached : ReportOutcome
  | invalidRange : ReportOutcome
  | neverStarted : ReportOutcome
  | reported : String → ℚ → ℚ → Nat → Nat → Nat → ReportOutcome
deriving DecidableEq

/-- Whether the report produced a numeric FPS result. -/
def ReportOutcome.isNumeric : ReportOutcome → Bool
  | .reported _ _ _ _ _ _ => true
  | _ => false

/-- `Application::WriteMeasurementRangeFpsToConsole` (application.cpp
lines 197-251).  Checks, in source order: frame-source error state;
still running short of the end frame; start frame at or past the end
frame; last frame before the start frame.  Then, when the last frame is
strictly before the end frame, the range is clipped: decoders are
flushed to idle, `measurement_end_time` is sampled now (`now` models
`GetTimestamp()` at report time), and the local end frame is replaced by
the current frame.  Finally elapsed seconds, the total frame count and
the fps ratio are computed and the console line emitted.  Returns the
outcome together with the controller state after the call. -/
def Application.writeMeasurementRangeFps (app : Application)
    (measurementStartFrame measurementEndFrame : Nat) (now : Int) :
    ReportOutcome × Application :=
  match app.fileProcessor with
  | none => (ReportOutcome.noFrameSource, app)
  | some fp =>
    if fp.errorState = true then
      (ReportOutcome.failureOccurred, app)
    else if app.running = true ∧ fp.currentFrame < measurementEndFrame then
      (ReportOutcome.rangeNotReached, app)
    else if measurementStartFrame ≥ measurementEndFrame then
      (ReportOutcome.invalidRange, app)
    else if fp.currentFrame < measurementStartFrame then
      (ReportOutcome.neverStarted, app)
    else
      let clipped :=
        if fp.currentFrame < measurementEndFrame then
          ({ app with fileProcessor := some fp.waitDecodersIdle,
                      measurementEndTime := now }, fp.currentFrame)
        else
          (app, measurementEndFrame)
      let app2 := clipped.1
      let endFrame := clipped.2
      let diffTimeSec := convertTimestampToSeconds
        (diffTimestamps app2.measurementStartTime app2.measurementEndTime)
      let totalFrames := endFrame - measurementStartFrame
      let fps := (totalFrames : ℚ) / diffTimeSec
      (ReportOutcome.reported
        (renderFpsLine fps diffTimeSec totalFrames measurementStartFrame endFrame)
        fps diffTimeSec totalFrames measurementStartFrame endFrame, app2)

/-- `Application::HandleMeasurementRange` (application.cpp lines
166-195), threading the list of pending `GetTimestamp()` samples: when
the current frame equals the start (resp. end) frame, optionally flush
the decoders to idle and record the start (resp. end) timestamp; on the
end frame additionally stop the loop when `quit_after_range` is set.
The source dereferences `file_processor_` unconditionally here; a call
with no processor bound is undefined behavior and modelled as a no-op. -/
def Application.handleMeasurementRange (app : Application)
    (measurementStartFrame measurementEndFrame : Nat)
    (quitAfterRange flushMeasurementRange : Bool) (times : List Int) :
    Application × List Int :=
  match app.fileProcessor with
  | none => (app, times)
  | some fp =>
    if fp.currentFrame = measurementStartFrame then
      let fp2 := if flushMeasurementRange then fp.waitDecodersIdle else fp
      ({ app with fileProcessor := some fp2, measurementStartTime := times.headD 0 },
       times.tail)
    else if fp.currentFrame = measurementEndFrame then
      let fp2 := if flushMeasurementRange then fp.waitDecodersIdle else fp
      let app2 := { app with fileProcessor := some fp2,
                             measurementEndTime := times.headD 0 }
      (if quitAfterRange then { app2 with running := false } else app2, times.tail)
    else
      (app, times)

/-- Modelled from the spec: one round of the pure-virtual
`ProcessEvents` (implemented by concrete subclasses).  Spec §4.1: event
processing "may itself request a stop (sets `running = false`) or
request a pause". -/
structure EventAction where
  quit : Bool
  pauseRequest : Option Bool
deriving DecidableEq

/-- Modelled from the spec: applying one event round to the controller —
an optional pause/resume request followed by an optional quit request. -/
def Application.processEvents (app : Application) (e : EventAction) : Application :=
  let app1 :=
    match e.pauseRequest with
    | some b => app.setPaused b
    | none => app
  if e.quit then { app1 with running := false } else app1

/-- The `while (running_)` loop body of `Application::Run`
(application.cpp lines 66-81), driven by a script of event rounds and a
script of timestamp samples, with explicit fuel for termination: process
events; if still running and not paused, handle the measurement range
and, if still running, play a single frame. -/
def Application.runLoop : Nat → Application → Nat → Nat → Bool → Bool →
    List EventAction → List Int → Application
  | 0, app, _, _, _, _, _, _ => app
  | fuel + 1, app, msf, mef, qar, fl, events, times =>
    if app.running = true then
      let app1 := app.processEvents (events.headD { quit := false, pauseRequest := none })
      if app1.running = true ∧ app1.paused = false then
        let stepped := app1.handleMeasurementRange msf mef qar fl times
        let app2 := stepped.1
        let app3 := if app2.running = true then (app2.playSingleFrame).2 else app2
        Application.runLoop fuel app3 msf mef qar fl events.tail stepped.2
      else
        Application.runLoop fuel app1 msf mef qar fl events.tail times
    else app

/-- The entry of `Application::Run` (application.cpp lines 62-64): set
`running_`, zero both measurement timestamps. -/
def Application.runStart (app : Application) : Application :=
  { app with running := true, measurementStartTime := 0, measurementEndTime := 0 }

/-- `Application::Run` (application.cpp lines 57-84): initialize, iterate
the loop, then write the measurement-range FPS report.  `reportNow`
models `GetTimestamp()` at report time. -/
def Application.run (app : Application) (msf mef : Nat) (qar fl : Bool)
    (fuel : Nat) (events : List EventAction) (times : List Int) (reportNow : Int) :
    ReportOutcome × Application :=
  let app1 := Application.runLoop fuel app.runStart msf mef qar fl events times
  app1.writeMeasurementRangeFps msf mef reportNow

/-- The auto-pause trigger condition inside `PlaySingleFrame`
(application.cpp lines 109-114): the advance succeeds and the new
current frame equals `pause_frame_`. -/
def Application.pauseTrigger (app : Application) : Bool :=
  match app.fileProcessor with
  | none => false
  | some fp =>
    (fp.processNextFrame).1 && ((fp.processNextFrame).2.currentFrame == app.pauseFrame)

/-- One "resume and advance" round: the user resumes (clears `paused`)
and the loop plays a single frame; this drives a run past the pause
frame, since a paused loop stops advancing until resumed. -/
def Application.resumeThenPlay (app : Application) : Application :=
  ((app.setPaused false).playSingleFrame).2

/-- Iterate `resumeThenPlay`. -/
def Application.iterSteps : Nat → Application → Application
  | 0, app => app
  | i + 1, app => (Application.iterSteps i app).resumeThenPlay

/-- The data-model invariant from spec §3: the paused flag is raised
only while the running flag is. -/
abbrev pausedOnlyWhileRunning (app : Application) : Prop :=
  app.paused = true → app.running = true

/-- States reachable through the controller's public operations:
construction, binding a processor, pause/resume, pause-frame setting,
single-frame stepping, window registration and a complete `Run`. -/
inductive Reachable : Application → Prop
  | init (name : String) (pauseFrameInit : Nat) (startTimeInit endTimeInit : Int) :
      Reachable (Application.init name pauseFrameInit startTimeInit endTimeInit)
  | setFileProcessor {app : Application} (fp : Option FileProcessor) :
      Reachable app → Reachable (app.setFileProcessor fp)
  | setPaused {app : Application} (b : Bool) :
      Reachable app → Reachable (app.setPaused b)
  | setPauseFrame {app : Application} (n : Nat) :
      Reachable app → Reachable (app.setPauseFrame n)
  | playSingleFrame {app : Application} :
      Reachable app → Reachable (app.playSingleFrame).2
  | registerWindow {app : Application} (w : Nat) :
      Reachable app → Reachable (app.registerWindow w).2
  | unregisterWindow {app : Application} (w : Nat) :
      Reachable app → Reachable (app.unregisterWindow w).2
  | run {app : Application} (msf mef : Nat) (qar fl : Bool) (fuel : Nat)
      (events : List EventAction) (times : List Int) (reportNow : Int) :
      Reachable app → Reachable (app.run msf mef qar fl fuel events times reportNow).2

/-- Claim C1, counterexample: with no frame source bound and the loop
running, `PlaySingleFrame` returns false but leaves the running flag
true — the claim asserts the running flag would be set to false. -/
theorem playSingleFrame_unbound_counterexample :
    ({ Application.init "app" 0 0 0 with running := true }).playSingleFrame
        = (false, { Application.init "app" 0 0 0 with running := true }) ∧
    (({ Application.init "app" 0 0 0 with
        running := true }).playSingleFrame).2.running = true := by
  decide

/-- Claim C1, amended: `PlaySingleFrame` returns false both when no
frame source is bound and when the bound frame source reports failure
advancing, but it clears the running flag only in the failure case; with
no frame source bound the state (running flag included) is unchanged. -/
theorem playSingleFrame_failure_stops (app : Application) :
    (app.fileProcessor = none → app.playSingleFrame = (false, app)) ∧
    (∀ fp : FileProcessor, app.fileProcessor = some fp →
      (fp.processNextFrame).1 = false →
      (app.playSingleFrame).1 = false ∧ (app.playSingleFrame).2.running = false) := by
  constructor
  · intro h
    simp [Application.playSingleFrame, h]
  · intro fp hfp hfail
    rcases hp : fp.processNextFrame with ⟨b, fp2⟩
    rw [hp] at hfail
    simp only at hfail
    subst hfail
    simp [Application.playSingleFrame, hfp, hp]

/-- Claim C1, witness: the amended theorem at two concrete inputs — an
unbound controller, and a bound frame source whose next advance fails. -/
theorem playSingleFrame_failure_stops_witness :
    ({ Application.init "app" 0 0 0 with running := true }).playSingleFrame
        = (false, { Application.init "app" 0 0 0 with running := true }) ∧
    ((({ Application.init "app" 0 0 0 with
         running := true
         fileProcessor := some ⟨3, false, false, [false]⟩ }).playSingleFrame).1 = false ∧
     (({ Application.init "app" 0 0 0 with
         running := true
         fileProcessor := some ⟨3, false, false, [false]⟩ }).playSingleFrame).2.running
        = false) :=
  ⟨(playSingleFrame_failure_stops
      { Application.init "app" 0 0 0 with running := true }).1 rfl,
   (playSingleFrame_failure_stops
      { Application.init "app" 0 0 0 with
        running := true
        fileProcessor := some ⟨3, false, false, [false]⟩ }).2
      ⟨3, false, false, [false]⟩ rfl (by decide)⟩

/-- Claim C4: when the frame source's sticky error state is set, the
end-of-run reporter emits the failure diagnostic and returns without
producing any FPS value, regardless of timestamps, configured range, or
the running flag — the check precedes every other reporting case. -/
theorem report_error_state_first (app : Application) (fp : FileProcessor)
    (msf mef : Nat) (now : Int)
    (hfp : app.fileProcessor = some fp) (herr : fp.errorState = true) :
    app.writeMeasurementRangeFps msf mef now = (ReportOutcome.failureOccurred, app) := by
  simp [Application.writeMeasurementRangeFps, hfp, herr]

/-- Claim C4, witness: error state set with otherwise-valid timestamps,
a valid range, and the range reached. -/
theorem report_error_state_first_witness :
    ({ Application.init "app" 0 0 0 with
       fileProcessor := some ⟨110, true, false, []⟩,
       measurementEndTime := 1000000000 }).writeMeasurementRangeFps 10 110 0
      = (ReportOutcome.failureOccurred,
         { Application.init "app" 0 0 0 with
           fileProcessor := some ⟨110, true, false, []⟩,
           measurementEndTime := 1000000000 }) :=
  report_error_state_first
    { Application.init "app" 0 0 0 with
      fileProcessor := some ⟨110, true, false, []⟩,
      measurementEndTime := 1000000000 }
    ⟨110, true, false, []⟩ 10 110 0 rfl rfl

/-- Claim C5: with no frame-source error, if the running flag is still
true and the current frame is strictly before the end frame, the
reporter emits the range-not-reached warning and produces no FPS
value. -/
theorem report_range_not_reached (app : Application) (fp : FileProcessor)
    (msf mef : Nat) (now : Int)
    (hfp : app.fileProcessor = some fp) (herr : fp.errorState = false)
    (hrun : app.running = true) (hcur : fp.currentFrame < mef) :
    app.writeMeasurementRangeFps msf mef now = (ReportOutcome.rangeNotReached, app) := by
  simp [Application.writeMeasurementRangeFps, hfp, herr, hrun, hcur]

/-- Claim C5, witness: stopping at frame 5 with end frame 20 while the
running flag is still true. -/
theorem report_range_not_reached_witness :
    ({ Application.init "app" 0 0 0 with
       running := true
       fileProcessor := some ⟨5, false, false, []⟩ }).writeMeasurementRangeFps 0 20 0
      = (ReportOutcome.rangeNotReached,
         { Application.init "app" 0 0 0 with
           running := true
           fileProcessor := some ⟨5, false, false, []⟩ }) :=
  report_range_not_reached
    { Application.init "app" 0 0 0 with
      running := true
      fileProcessor := some ⟨5, false, false, []⟩ }
    ⟨5, false, false, []⟩ 0 20 0 rfl rfl rfl (by decide)

/-- Claim C6, counterexample: with start frame 50 and end frame 10 (so
start ≥ end) but the frame source in its error state, reporting yields
the failure diagnostic, not the invalid-range warning. -/
theorem report_invalid_range_counterexample :
    (50 : Nat) ≥ 10 ∧
    (({ Application.init "app" 0 0 0 with
        fileProcessor := some ⟨5, true, false, []⟩ }).writeMeasurementRangeFps 50 10 0).1
      = ReportOutcome.failureOccurred ∧
    (({ Application.init "app" 0 0 0 with
        fileProcessor := some ⟨5, true, false, []⟩ }).writeMeasurementRangeFps 50 10 0).1
      ≠ ReportOutcome.invalidRange := by
  decide

/-- Claim C6, amended: when start frame ≥ end frame the reporter never
produces a numeric FPS result, and it emits the invalid-range warning
provided the two earlier checks pass (no frame-source error, and not
still running short of the end frame). -/
theorem report_invalid_range (app : Application) (fp : FileProcessor)
    (msf mef : Nat) (now : Int)
    (hfp : app.fileProcessor = some fp) (hge : msf ≥ mef) :
    (fp.errorState = false → ¬(app.running = true ∧ fp.currentFrame < mef) →
      app.writeMeasurementRangeFps msf mef now = (ReportOutcome.invalidRange, app)) ∧
    (app.writeMeasurementRangeFps msf mef now).1.isNumeric = false := by
  constructor
  · intro herr hnr
    simp [Application.writeMeasurementRangeFps, hfp, herr, hnr, hge]
  · by_cases h1 : fp.errorState = true
    · simp [Application.writeMeasurementRangeFps, hfp, h1, ReportOutcome.isNumeric]
    · by_cases h2 : app.running = true ∧ fp.currentFrame < mef
      · simp [Application.writeMeasurementRangeFps, hfp, h1, h2, ReportOutcome.isNumeric]
      · simp [Application.writeMeasurementRangeFps, hfp, h1, h2, hge,
              ReportOutcome.isNumeric]

/-- Claim C6, witness: the amended theorem at start frame 50, end frame
10, a healthy stopped frame source at frame 5. -/
theorem report_invalid_range_witness :
    ({ Application.init "app" 0 0 0 with
       fileProcessor := some ⟨5, false, false, []⟩ }).writeMeasurementRangeFps 50 10 0
      = (ReportOutcome.invalidRange,
         { Application.init "app" 0 0 0 with
           fileProcessor := some ⟨5, false, false, []⟩ }) ∧
    (({ Application.init "app" 0 0 0 with
        fileProcessor := some ⟨5, false, false, []⟩ }).writeMeasurementRangeFps
        50 10 0).1.isNumeric = false :=
  ⟨(report_invalid_range
      { Application.init "app" 0 0 0 with fileProcessor := some ⟨5, false, false, []⟩ }
      ⟨5, false, false, []⟩ 50 10 0 rfl (by decide)).1 rfl (by decide),
   (report_invalid_range
      { Application.init "app" 0 0 0 with fileProcessor := some ⟨5, false, false, []⟩ }
      ⟨5, false, false, []⟩ 50 10 0 rfl (by decide)).2⟩

/-- Claim C9: registering a handle already present returns failure and
leaves the registry (the whole controller state) unchanged, and
unregistering a handle not present returns failure and leaves it
unchanged. -/
theorem registry_failure_leaves_unchanged (app : Application) (w : Nat) :
    (w ∈ app.windows → app.registerWindow w = (false, app)) ∧
    (w ∉ app.windows → app.unregisterWindow w = (false, app)) := by
  constructor
  · intro h
    simp [Application.registerWindow, h]
  · intro h
    simp [Application.unregisterWindow, h]

/-- Claim C9, witness: duplicate registration of handle 7 and
unregistration of absent handle 9 on a registry holding only 7. -/
theorem registry_failure_leaves_unchanged_witness :
    ({ Application.init "app" 0 0 0 with windows := [7] }).registerWindow 7
        = (false, { Application.init "app" 0 0 0 with windows := [7] }) ∧
    ({ Application.init "app" 0 0 0 with windows := [7] }).unregisterWindow 9
        = (false, { Application.init "app" 0 0 0 with windows := [7] }) :=
  ⟨(registry_failure_leaves_unchanged
      { Application.init "app" 0 0 0 with windows := [7] } 7).1 (by decide),
   (registry_failure_leaves_unchanged
      { Application.init "app" 0 0 0 with windows := [7] } 9).2 (by decide)⟩

lemma formatFixed6_one : formatFixed6 1 = "1.000000" := by
  unfold formatFixed6
  rw [show (1 : ℚ) * 1000000 = ((1000000 : ℕ) : ℚ) by norm_num, round_natCast]
  decide

lemma formatFixed6_two : formatFixed6 2 = "2.000000" := by
  unfold formatFixed6
  rw [show (2 : ℚ) * 1000000 = ((2000000 : ℕ) : ℚ) by norm_num, round_natCast]
  decide

lemma formatFixed6_five : formatFixed6 5 = "5.000000" := by
  unfold formatFixed6
  rw [show (5 : ℚ) * 1000000 = ((5000000 : ℕ) : ℚ) by norm_num, round_natCast]
  decide

lemma formatFixed6_hundred : formatFixed6 100 = "100.000000" := by
  unfold formatFixed6
  rw [show (100 : ℚ) * 1000000 = ((100000000 : ℕ) : ℚ) by norm_num, round_natCast]
  decide

/-- Claim C3: when the report reaches the computing case with a valid
range and sampled timestamps, the reported fps is the frame count
divided by the elapsed seconds (the converted timestamp difference), and
the output is the single console line with pluralized frame count. -/
theorem report_fps_formula (app : Application) (fp : FileProcessor)
    (msf mef : Nat) (now : Int)
    (hfp : app.fileProcessor = some fp) (herr : fp.errorState = false)
    (hnr : ¬(app.running = true ∧ fp.currentFrame < mef))
    (hlt : msf < mef) (hend : mef ≤ fp.currentFrame) :
    app.writeMeasurementRangeFps msf mef now =
      (ReportOutcome.reported
        (renderFpsLine
          ((mef - msf : Nat) / convertTimestampToSeconds
            (diffTimestamps app.measurementStartTime app.measurementEndTime))
          (convertTimestampToSeconds
            (diffTimestamps app.measurementStartTime app.measurementEndTime))
          (mef - msf) msf mef)
        ((mef - msf : Nat) / convertTimestampToSeconds
          (diffTimestamps app.measurementStartTime app.measurementEndTime))
        (convertTimestampToSeconds
          (diffTimestamps app.measurementStartTime app.measurementEndTime))
        (mef - msf) msf mef, app) := by
  have h3 : ¬ (msf ≥ mef) := by omega
  have h4 : ¬ (fp.currentFrame < msf) := by omega
  have h5 : ¬ (fp.currentFrame < mef) := by omega
  simp [Application.writeMeasurementRangeFps, hfp, herr, hnr, h3, h4, h5]

/-- Claim C3, witness: start frame 10, end frame 110, frames 0..110
processed, one second elapsed between the sampled timestamps — reported
FPS 100, frame count 100, range text [10-110). -/
theorem report_fps_formula_witness :
    ({ Application.init "app" 0 0 0 with
       fileProcessor := some ⟨110, false, false, []⟩
       measurementStartTime := 0
       measurementEndTime := 1000000000 }).writeMeasurementRangeFps 10 110 0
      = (ReportOutcome.reported
          "Measurement range FPS: 100.000000 fps, 1.000000 seconds, 100 frames, 1 loop, framerange [10-110)"
          100 1 100 10 110,
         { Application.init "app" 0 0 0 with
           fileProcessor := some ⟨110, false, false, []⟩
           measurementStartTime := 0
           measurementEndTime := 1000000000 }) := by
  have h := report_fps_formula
    { Application.init "app" 0 0 0 with
      fileProcessor := some ⟨110, false, false, []⟩
      measurementStartTime := 0
      measurementEndTime := 1000000000 }
    ⟨110, false, false, []⟩ 10 110 0 rfl rfl (by decide) (by decide) (by decide)
  rw [h]
  norm_num [renderFpsLine, convertTimestampToSeconds, diffTimestamps,
    formatFixed6_hundred, formatFixed6_one]
  rfl

/-- Claim C2, counterexample: the reporter clips in a state where the
last frame processed (5) is strictly BEFORE the end frame (20) — the
claim asserts clipping happens exactly when the last frame is at or
beyond the end frame with the end timestamp unsampled.  Here the end
timestamp was indeed never sampled (still 0), the loop is stopped, and
the reporter nevertheless flushes, samples the end time (1000000000) and
replaces the end frame with 5. -/
theorem report_clip_counterexample :
    (5 : Nat) < 20 ∧
    (Application.init "app" 0 0 0).measurementEndTime = 0 ∧
    ({ Application.init "app" 0 0 0 with
       fileProcessor := some ⟨5, false, false, []⟩ }).writeMeasurementRangeFps
       0 20 1000000000
      = (ReportOutcome.reported
          "Measurement range FPS: 5.000000 fps, 1.000000 seconds, 5 frames, 1 loop, framerange [0-5)"
          5 1 5 0 5,
         { Application.init "app" 0 0 0 with
           fileProcessor := some ⟨5, false, true, []⟩
           measurementEndTime := 1000000000 }) := by
  refine ⟨by decide, by decide, ?_⟩
  norm_num [Application.writeMeasurementRangeFps, Application.init,
    FileProcessor.waitDecodersIdle, renderFpsLine, convertTimestampToSeconds,
    diffTimestamps, formatFixed6_five, formatFixed6_one]
  rfl

/-- Claim C2, amended: the reporter clips exactly when it reaches the
clip check (no frame-source error; not still running short of the end
frame; start frame < end frame; start frame ≤ last frame) and the last
frame processed is strictly before the end frame; it then flushes the
frame source to idle, samples measurement_end_time at report time, and
replaces the end frame with the last frame actually processed.  When the
last frame is at or beyond the end frame no clipping occurs: the state
is unchanged and the stored measurement_end_time is used as is. -/
theorem report_clip_behavior (app : Application) (fp : FileProcessor)
    (msf mef : Nat) (now : Int)
    (hfp : app.fileProcessor = some fp) (herr : fp.errorState = false)
    (hnr : ¬(app.running = true ∧ fp.currentFrame < mef))
    (hlt : msf < mef) (hstart : msf ≤ fp.currentFrame) :
    (fp.currentFrame < mef →
      app.writeMeasurementRangeFps msf mef now =
        (ReportOutcome.reported
          (renderFpsLine
            ((fp.currentFrame - msf : Nat) / convertTimestampToSeconds
              (diffTimestamps app.measurementStartTime now))
            (convertTimestampToSeconds (diffTimestamps app.measurementStartTime now))
            (fp.currentFrame - msf) msf fp.currentFrame)
          ((fp.currentFrame - msf : Nat) / convertTimestampToSeconds
            (diffTimestamps app.measurementStartTime now))
          (convertTimestampToSeconds (diffTimestamps app.measurementStartTime now))
          (fp.currentFrame - msf) msf fp.currentFrame,
         { app with
           fileProcessor := some fp.waitDecodersIdle
           measurementEndTime := now })) ∧
    (mef ≤ fp.currentFrame →
      (app.writeMeasurementRangeFps msf mef now).2 = app ∧
      (app.writeMeasurementRangeFps msf mef now).1 =
        ReportOutcome.reported
          (renderFpsLine
            ((mef - msf : Nat) / convertTimestampToSeconds
              (diffTimestamps app.measurementStartTime app.measurementEndTime))
            (convertTimestampToSeconds
              (diffTimestamps app.measurementStartTime app.measurementEndTime))
            (mef - msf) msf mef)
          ((mef - msf : Nat) / convertTimestampToSeconds
            (diffTimestamps app.measurementStartTime app.measurementEndTime))
          (convertTimestampToSeconds
            (diffTimestamps app.measurementStartTime app.measurementEndTime))
          (mef - msf) msf mef) := by
  have h3 : ¬ (msf ≥ mef) := by omega
  have h4 : ¬ (fp.currentFrame < msf) := by omega
  constructor
  · intro hclip
    have hrun : app.running = false := by
      cases hr : app.running
      · rfl
      · exact absurd ⟨hr, hclip⟩ hnr
    simp [Application.writeMeasurementRangeFps, hfp, herr, hrun, h3, h4, hclip]
  · intro hge
    have h5 : ¬ (fp.currentFrame < mef) := by omega
    constructor
    · simp [Application.writeMeasurementRangeFps, hfp, herr, hnr, h3, h4, h5]
    · simp [Application.writeMeasurementRangeFps, hfp, herr, hnr, h3, h4, h5]

/-- Claim C2, witness: the amended theorem's clip branch at a concrete
input — start frame 1, last frame 5, end frame 20, two seconds elapsed;
the end frame is replaced by 5 and the end time sampled at report
time. -/
theorem report_clip_behavior_witness :
    ({ Application.init "app" 0 0 0 with
       fileProcessor := some ⟨5, false, false, []⟩ }).writeMeasurementRangeFps
       1 20 2000000000
      = (ReportOutcome.reported
          "Measurement range FPS: 2.000000 fps, 2.000000 seconds, 4 frames, 1 loop, framerange [1-5)"
          2 2 4 1 5,
         { Application.init "app" 0 0 0 with
           fileProcessor := some ⟨5, false, true, []⟩
           measurementEndTime := 2000000000 }) := by
  have h := (report_clip_behavior
    { Application.init "app" 0 0 0 with fileProcessor := some ⟨5, false, false, []⟩ }
    ⟨5, false, false, []⟩ 1 20 2000000000 rfl rfl (by decide) (by decide)
    (by decide)).1 (by decide)
  rw [h]
  norm_num [renderFpsLine, convertTimestampToSeconds, diffTimestamps,
    FileProcessor.waitDecodersIdle, Application.init, formatFixed6_two]
  rfl

/-- Claim C7, counterexample: a paused-while-stopped state is reachable
through the public operations alone — construct and call SetPaused(true)
with the loop never started — so the invariant "paused only while
running (or transiently at loop exit)" fails: this state does not arise
at any loop exit. -/
theorem paused_while_stopped_counterexample :
    Reachable ((Application.init "app" 0 0 0).setPaused true) ∧
    ((Application.init "app" 0 0 0).setPaused true).paused = true ∧
    ((Application.init "app" 0 0 0).setPaused true).running = false :=
  ⟨Reachable.setPaused true (Reachable.init "app" 0 0 0), rfl, rfl⟩

/-- Claim C7, amended: "paused implies running" is established by
construction and preserved by SetFileProcessor, SetPauseFrame,
RegisterWindow, UnregisterWindow, SetPaused(false), and by
PlaySingleFrame both when the controller is running and the advance
succeeds and when the controller is unpaused and the advance fails (the
loop-exit transient); it is not an invariant of all reachable states,
because SetPaused(true) raises paused regardless of running. -/
theorem paused_only_while_running_preserved (app : Application) (name : String)
    (pf0 : Nat) (t1 t2 : Int) (n w : Nat) (fps : Option FileProcessor) :
    pausedOnlyWhileRunning (Application.init name pf0 t1 t2) ∧
    (pausedOnlyWhileRunning app → pausedOnlyWhileRunning (app.setFileProcessor fps)) ∧
    (pausedOnlyWhileRunning app → pausedOnlyWhileRunning (app.setPauseFrame n)) ∧
    (pausedOnlyWhileRunning app → pausedOnlyWhileRunning (app.registerWindow w).2) ∧
    (pausedOnlyWhileRunning app → pausedOnlyWhileRunning (app.unregisterWindow w).2) ∧
    pausedOnlyWhileRunning (app.setPaused false) ∧
    (app.running = true → (app.playSingleFrame).1 = true →
      pausedOnlyWhileRunning (app.playSingleFrame).2) ∧
    (app.paused = false → (app.playSingleFrame).1 = false →
      pausedOnlyWhileRunning (app.playSingleFrame).2) := by
  refine ⟨?_, ?_, ?_, ?_, ?_, ?_, ?_, ?_⟩
  · intro h
    simp [Application.init] at h
  · intro hI
    exact hI
  · intro hI
    exact hI
  · intro hI
    unfold Application.registerWindow
    by_cases hw : w ∈ app.windows
    · simp only [if_pos hw]
      exact hI
    · simp only [if_neg hw]
      exact hI
  · intro hI
    unfold Application.unregisterWindow
    by_cases hw : w ∈ app.windows
    · simp only [if_pos hw]
      exact hI
    · simp only [if_neg hw]
      exact hI
  · intro h
    simp [Application.setPaused] at h
  · intro hrun hsucc
    rcases hfp : app.fileProcessor with _ | fp
    · simp [Application.playSingleFrame, hfp]
      intro _
      exact hrun
    · rcases hp : fp.processNextFrame with ⟨b, fp2⟩
      cases b
      · exfalso
        simp [Application.playSingleFrame, hfp, hp] at hsucc
      · simp [Application.playSingleFrame, hfp, hp]
        intro _
        exact hrun
  · intro hpz hfail
    rcases hfp : app.fileProcessor with _ | fp
    · simp [Application.playSingleFrame, hfp]
      intro h
      exact absurd h (by simp [hpz])
    · rcases hp : fp.processNextFrame with ⟨b, fp2⟩
      cases b
      · simp [Application.playSingleFrame, hfp, hp]
        intro h
        exact absurd h (by simp [hpz])
      · exfalso
        simp [Application.playSingleFrame, hfp, hp] at hfail

/-- Claim C7, witness: the amended preservation applied at concrete
states — SetPauseFrame, RegisterWindow and SetPaused(false) on a fresh
controller, a successful advance while running, and a failed advance
while unpaused. -/
theorem paused_only_while_running_preserved_witness :
    pausedOnlyWhileRunning ((Application.init "a" 0 0 0).setPauseFrame 5) ∧
    pausedOnlyWhileRunning ((Application.init "a" 0 0 0).registerWindow 1).2 ∧
    pausedOnlyWhileRunning ((Application.init "a" 0 0 0).setPaused false) ∧
    pausedOnlyWhileRunning (({ Application.init "a" 1 0 0 with
      running := true
      fileProcessor := some ⟨0, false, false, [true]⟩ }).playSingleFrame).2 ∧
    pausedOnlyWhileRunning (({ Application.init "a" 1 0 0 with
      fileProcessor := some ⟨0, false, false, []⟩ }).playSingleFrame).2 :=
  ⟨(paused_only_while_running_preserved (Application.init "a" 0 0 0)
      "a" 0 0 0 5 1 none).2.2.1 (by decide),
   (paused_only_while_running_preserved (Application.init "a" 0 0 0)
      "a" 0 0 0 5 1 none).2.2.2.1 (by decide),
   (paused_only_while_running_preserved (Application.init "a" 0 0 0)
      "a" 0 0 0 5 1 none).2.2.2.2.2.1,
   (paused_only_while_running_preserved ({ Application.init "a" 1 0 0 with
      running := true
      fileProcessor := some ⟨0, false, false, [true]⟩ })
      "a" 0 0 0 5 1 none).2.2.2.2.2.2.1 (by decide) (by decide),
   (paused_only_while_running_preserved ({ Application.init "a" 1 0 0 with
      fileProcessor := some ⟨0, false, false, []⟩ })
      "a" 0 0 0 5 1 none).2.2.2.2.2.2.2 (by decide) (by decide)⟩

/-- Claim C10: `Run` sets the running flag and zeroes both measurement
timestamps before the first loop iteration, so the run's outcome is
independent of whatever the running flag or the timestamps held before
the call — no timestamp sampled during a previous run can influence the
current run's FPS report. -/
theorem run_resets_measurement_state :
    (∀ app : Application, (app.runStart).running = true ∧
      (app.runStart).measurementStartTime = 0 ∧
      (app.runStart).measurementEndTime = 0) ∧
    (∀ (app : Application) (t1 t2 : Int) (b : Bool) (msf mef : Nat) (qar fl : Bool)
      (fuel : Nat) (events : List EventAction) (times : List Int) (now : Int),
      ({ app with
          measurementStartTime := t1
          measurementEndTime := t2
          running := b }).run msf mef qar fl fuel events times now
        = app.run msf mef qar fl fuel events times now) :=
  ⟨fun _ => ⟨rfl, rfl, rfl⟩, fun _ _ _ _ _ _ _ _ _ _ _ _ => rfl⟩

lemma resumeThenPlay_shape (app : Application) (c N m : Nat) (e d : Bool)
    (hfp : app.fileProcessor = some ⟨c, e, d, List.replicate (m + 1) true⟩)
    (hN : app.pauseFrame = N) :
    app.resumeThenPlay =
      { app with
          fileProcessor := some ⟨c + 1, e, false, List.replicate m true⟩
          paused := (c + 1 == N) } := by
  cases hb : ((c + 1 : Nat) == N) <;>
    simp [Application.resumeThenPlay, Application.setPaused, Application.playSingleFrame,
          FileProcessor.processNextFrame, hfp, hN, List.replicate_succ, hb]

lemma iterSteps_shape (app : Application) (c0 N k : Nat) (e d : Bool)
    (hfp : app.fileProcessor = some ⟨c0, e, d, List.replicate k true⟩)
    (hN : app.pauseFrame = N) :
    ∀ i, 1 ≤ i → i ≤ k →
      Application.iterSteps i app =
        { app with
            fileProcessor := some ⟨c0 + i, e, false, List.replicate (k - i) true⟩
            paused := (c0 + i == N) } := by
  intro i
  induction i with
  | zero =>
    intro h1 _
    exact absurd h1 (by omega)
  | succ j ih =>
    intro _ hjk
    by_cases hj : j = 0
    · subst hj
      have hk1 : k - 1 + 1 = k := by omega
      simp only [Application.iterSteps]
      rw [resumeThenPlay_shape app c0 N (k - 1) e d (by rw [hk1]; exact hfp) hN]
    · have h1j : 1 ≤ j := by omega
      have hjk2 : j ≤ k := by omega
      have hkj : k - j - 1 + 1 = k - j := by omega
      simp only [Application.iterSteps]
      rw [ih h1j hjk2]
      rw [resumeThenPlay_shape _ (c0 + j) N (k - j - 1) e false (by rw [hkj])
            (by exact hN)]
      have e1 : c0 + j + 1 = c0 + (j + 1) := by omega
      have e2 : k - j - 1 = k - (j + 1) := by omega
      rw [e1, e2]

lemma pauseTrigger_shape (app : Application) (c N m : Nat) (e d : Bool)
    (hfp : app.fileProcessor = some ⟨c, e, d, List.replicate (m + 1) true⟩)
    (hN : app.pauseFrame = N) :
    app.pauseTrigger = (c + 1 == N) := by
  simp [Application.pauseTrigger, hfp, hN, FileProcessor.processNextFrame,
        List.replicate_succ]

/-- Claim C8: with the pause frame set to N and a frame source at frame
c0 advancing exactly one frame per successful advance, driving the run
past N (resuming after each pause) pauses the controller exactly once —
the paused flag holds after step i exactly when c0 + i = N, the
auto-pause trigger of PlaySingleFrame fires before step i+1 exactly when
c0 + i + 1 = N, and that step index N - c0 lies in the run. -/
theorem pause_frame_pauses_once (app : Application) (c0 k N : Nat) (e d : Bool)
    (hfp : app.fileProcessor = some ⟨c0, e, d, List.replicate k true⟩)
    (hN : app.pauseFrame = N) (hlo : c0 < N) (hhi : N ≤ c0 + k) :
    (1 ≤ N - c0 ∧ N - c0 ≤ k) ∧
    (∀ i, 1 ≤ i → i ≤ k →
      ((Application.iterSteps i app).paused = true ↔ c0 + i = N)) ∧
    (∀ i, i < k →
      ((Application.iterSteps i app).pauseTrigger = true ↔ c0 + i + 1 = N)) := by
  refine ⟨by omega, ?_, ?_⟩
  · intro i h1 h2
    rw [iterSteps_shape app c0 N k e d hfp hN i h1 h2]
    simp
  · intro i hik
    by_cases hi : i = 0
    · subst hi
      have hk1 : k - 1 + 1 = k := by omega
      simp only [Application.iterSteps]
      rw [pauseTrigger_shape app c0 N (k - 1) e d (by rw [hk1]; exact hfp) hN]
      simp
    · have h1i : 1 ≤ i := by omega
      have hik2 : i ≤ k := by omega
      have hki : k - i - 1 + 1 = k - i := by omega
      rw [iterSteps_shape app c0 N k e d hfp hN i h1i hik2]
      rw [pauseTrigger_shape _ (c0 + i) N (k - i - 1) e false (by rw [hki])
            (by exact hN)]
      simp

/-- Claim C8, witness: pause frame 2, frame source at frame 0 with three
successful advances — paused exactly after step 2, trigger fires exactly
entering step 2. -/
theorem pause_frame_pauses_once_witness :
    ((Application.iterSteps 2 ({ Application.init "a" 2 0 0 with
        fileProcessor := some ⟨0, false, false, [true, true, true]⟩ })).paused = true
      ↔ 0 + 2 = 2) ∧
    ((Application.iterSteps 3 ({ Application.init "a" 2 0 0 with
        fileProcessor := some ⟨0, false, false, [true, true, true]⟩ })).paused = true
      ↔ 0 + 3 = 2) ∧
    ((Application.iterSteps 1 ({ Application.init "a" 2 0 0 with
        fileProcessor := some ⟨0, false, false, [true, true, true]⟩ })).pauseTrigger = true
      ↔ 0 + 1 + 1 = 2) :=
  ⟨(pause_frame_pauses_once ({ Application.init "a" 2 0 0 with
      fileProcessor := some ⟨0, false, false, [true, true, true]⟩ })
      0 3 2 false false rfl rfl (by decide) (by decide)).2.1 2 (by decide) (by decide),
   (pause_frame_pauses_once ({ Application.init "a" 2 0 0 with
      fileProcessor := some ⟨0, false, false, [true, true, true]⟩ })
      0 3 2 false false rfl rfl (by decide) (by decide)).2.1 3 (by decide) (by decide),
   (pause_frame_pauses_once ({ Application.init "a" 2 0 0 with
      fileProcessor := some ⟨0, false, false, [true, true, true]⟩ })
      0 3 2 false false rfl rfl (by decide) (by decide)).2.2 1 (by decide)⟩
